import Mathlib

/-!
Verification development for `get_djvu.py`, a script that downloads books
from a digital library: it parses a METS manifest, pairs image and text
resource URLs per page via the structMap, downloads the pages, attaches
text layers, merges pages with an external tool, and renders a wiki
description block from MARC and Dublin–Core metadata.

The definitions below are a shallow embedding of the Python source.
Python dicts are modelled as insertion-ordered association lists, Python
exceptions as an explicit error type, and external effects (network,
file writes, subprocess invocations, printing) as an explicit event trace.
-/

/-- Python runtime errors raised by the script. -/
inductive PyErr where
  | keyError (key : String)
  | indexError
  | typeError
  | runtimeError (msg : String)
  | childProcessError (msg : String)
  | httpError
deriving Repr, DecidableEq

/-- Model of a Python `dict` with string keys: an insertion-ordered
association list whose keys are unique by construction of `dset`. -/
abbrev Dict (α : Type) := List (String × α)

/-- Dict lookup, `d.get(k)`: first binding for `k` (bindings are unique). -/
def dget {α : Type} (d : Dict α) (k : String) : Option α :=
  match d with
  | [] => none
  | (k2, v) :: rest => if k2 = k then some v else dget rest k

/-- Python membership test `k in d`. -/
def dmem {α : Type} (d : Dict α) (k : String) : Bool :=
  (dget d k).isSome

/-- Python dict assignment `d[k] = v`: overwrite in place when the key is
present (keeping its position), otherwise append at the end. This is the
insertion-order semantics of Python 3.7+ dicts. -/
def dset {α : Type} (d : Dict α) (k : String) (v : α) : Dict α :=
  match d with
  | [] => [(k, v)]
  | (k2, v2) :: rest => if k2 = k then (k, v) :: rest else (k2, v2) :: dset rest k v

/-- Fallible dict indexing `d[k]` (raises `KeyError` when absent). -/
def dgetE {α : Type} (d : Dict α) (k : String) : Except PyErr α :=
  match dget d k with
  | some v => .ok v
  | none => .error (.keyError k)

/-- Fallible list indexing `l[0]` (raises `IndexError` on an empty list). -/
def headE {α : Type} (l : List α) : Except PyErr α :=
  match l with
  | [] => .error .indexError
  | x :: _ => .ok x

/-- Left-to-right fallible map, modelling a Python list comprehension whose
body may raise: the first raised error aborts the whole comprehension. -/
def mapME {α β : Type} (f : α → Except PyErr β) : List α → Except PyErr (List β)
  | [] => .ok []
  | x :: rest => do
    let y ← f x
    let r ← mapME f rest
    .ok (y :: r)

/-- Split a character list at every occurrence of the separator, keeping
empty groups, like Python `str.split(sep)`. -/
def splitChars (sep : Char) : List Char → List (List Char)
  | [] => [[]]
  | c :: rest =>
    match splitChars sep rest with
    | [] => [[]]
    | g :: gs => if c = sep then [] :: g :: gs else (c :: g) :: gs

/-- Python `s.split(sep)` for a one-character separator. -/
def pySplit (sep : Char) (s : String) : List String :=
  (splitChars sep s.data).map (fun l => String.mk l)

/-- Python `text.replace(c, '')` for a one-character pattern: drop every
occurrence of the character. -/
def stripChar (c : Char) (s : String) : String :=
  String.mk (s.data.filter (fun x => !(x = c)))

/-- The `_single_node` helper: an XPath query result must contain exactly
one node, otherwise a `RuntimeError` is raised. -/
def single_node {α : Type} (ret : List α) : Except PyErr α :=
  match ret with
  | [x] => .ok x
  | _ => .error (.runtimeError
      ("XPath query returned unexpected number of results: " ++ toString ret.length))

/-- Partial ISO 639-2B to ISO 639-1 language map (`langs` in the source). -/
def langs : Dict String :=
  [("chu", "cu"), ("cze", "cs"), ("eng", "en"), ("fre", "fr"), ("ger", "de"),
   ("grc", "el"), ("heb", "he"), ("ita", "it"), ("lat", "la"), ("pol", "pl"),
   ("rum", "ro"), ("rus", "ru"), ("scc", "sr"), ("scr", "hr"), ("slo", "sk"),
   ("slv", "sl"), ("swe", "sv"), ("ukr", "uk")]

/-- Special codes representing groups of languages (`lang_grp` in the source). -/
def lang_grp : Dict String :=
  [("mul", "(Multiple unspecified languages)"),
   ("sla", "(Slavic languages)"),
   ("wen", "(Sorbian languages)")]

/-- A `marc:datafield` element: its `tag` attribute and the `(code, text)`
pairs of its `marc:subfield` children in document order. -/
structure Datafield where
  tag : String
  subfields : List (String × String)
deriving Repr, DecidableEq

/-- Parse the subfields of one datafield into a dict of value lists,
mirroring the inner loop of `parse_marc`. -/
def parse_subfields (subs : List (String × String)) : Dict (List String) :=
  subs.foldl (fun tmp cs =>
    match dget tmp cs.1 with
    | some l => dset tmp cs.1 (l ++ [cs.2])
    | none => dset tmp cs.1 [cs.2]) []

/-- Parse MARCXML into a dict of subfield lists (`parse_marc`):
tag → ordered list of field instances, each a dict code → text values. -/
def parse_marc (recnode : List Datafield) : Dict (List (Dict (List String))) :=
  recnode.foldl (fun ret node =>
    let cur := (dget ret node.tag).getD []
    dset ret node.tag (cur ++ [parse_subfields node.subfields])) []

/-- A parsed MARC record, as produced by `parse_marc`. -/
abbrev Marc := Dict (List (Dict (List String)))

/-- Convert MARC person name tokens into a full name (`join_name`):
space-join of subfields a, b, c; subfield a is mandatory (`KeyError`). -/
def join_name (parts : Dict (List String)) : Except PyErr String :=
  match dget parts "a" with
  | none => .error (.keyError "a")
  | some a => .ok (String.intercalate " "
      (a ++ ((dget parts "b").getD []) ++ ((dget parts "c").getD [])))

/-- Role sets used by `make_description`. -/
def author_types : List String := ["Author", "Librettist", "Composer"]

/-- Editor role set used by `make_description`. -/
def editor_types : List String := ["Editor", "Compiler"]

/-- The role subfield values `x.get('e', [])` of a person field. -/
def roles (x : Dict (List String)) : List String := (dget x "e").getD []

/-- The combined person field list `marc.get('100', []) + marc.get('700', [])`. -/
def name_list (marc : Marc) : List (Dict (List String)) :=
  (dget marc "100").getD [] ++ (dget marc "700").getD []

/-- Persons whose role set intersects `author_types`. -/
def author_sel (marc : Marc) : List (Dict (List String)) :=
  (name_list marc).filter (fun x => (roles x).any (fun r => author_types.contains r))

/-- Persons whose role set intersects `editor_types`. -/
def editor_sel (marc : Marc) : List (Dict (List String)) :=
  (name_list marc).filter (fun x => (roles x).any (fun r => editor_types.contains r))

/-- Persons with exact role `Translator`. -/
def translator_sel (marc : Marc) : List (Dict (List String)) :=
  (name_list marc).filter (fun x => (roles x).contains "Translator")

/-- Persons with exact role `Illustrator`. -/
def illust_sel (marc : Marc) : List (Dict (List String)) :=
  (name_list marc).filter (fun x => (roles x).contains "Illustrator")

/-- The title mapping `titlefield = dict((x for f in marc['245'] for x in f.items()))`:
fold every instance's items into one dict, later bindings overwriting earlier ones. -/
def buildTitlefield (insts : List (Dict (List String))) : Dict (List String) :=
  insts.foldl (fun acc f => f.foldl (fun a kv => dset a kv.1 kv.2) acc) []

/-- One conditional person field: appended only when the joined name list is
non-empty, with the names joined by semicolons. -/
def person_seg (label : String) (l : List String) : List (String × String) :=
  if l.isEmpty then [] else [(label, String.intercalate "; " l)]

/-- The conditional Subtitle field from `titlefield['b'][0]`. -/
def subtitle_seg (tf : Dict (List String)) : Except PyErr (List (String × String)) :=
  match dget tf "b" with
  | none => .ok []
  | some l => do
    let v ← headE l
    .ok [("Subtitle", v)]

/-- The conditional Series title field from `', '.join(marc['440'][0]['a'])`. -/
def series_seg (marc : Marc) : Except PyErr (List (String × String)) :=
  match dget marc "440" with
  | none => .ok []
  | some insts => do
    let f ← headE insts
    let aVals ← dgetE f "a"
    .ok [("Series title", String.intercalate ", " aVals)]

/-- The conditional Volume field from title subfields n and p, colon-joined. -/
def volume_seg (tf : Dict (List String)) : List (String × String) :=
  if dmem tf "n" || dmem tf "p" then
    [("Volume", String.intercalate ": " (((dget tf "n").getD []) ++ ((dget tf "p").getD [])))]
  else []

/-- One conditional publication field from `pubfield[code][0]`. -/
def pub_item (pf : Dict (List String)) (code label : String) :
    Except PyErr (List (String × String)) :=
  match dget pf code with
  | none => .ok []
  | some l => do
    let v ← headE l
    .ok [(label, v)]

/-- The publication fields from the first tag-260 instance: Publisher (b),
Printer (f), Date (c), City (a), each independently conditional. -/
def pub_seg (marc : Marc) : Except PyErr (List (String × String)) :=
  match dget marc "260" with
  | none => .ok []
  | some insts => do
    let pf ← headE insts
    let s1 ← pub_item pf "b" "Publisher"
    let s2 ← pub_item pf "f" "Printer"
    let s3 ← pub_item pf "c" "Date"
    let s4 ← pub_item pf "a" "City"
    .ok (s1 ++ s2 ++ s3 ++ s4)

/-- The Language field logic of `make_description`: one value yields the
bare two-letter code or group label; several values yield a comma-joined
list with language codes wrapped in the language template; an empty list
yields no field; an unknown code raises `KeyError`. -/
def lang_fields (lang_list : List String) : Except PyErr (List (String × String)) :=
  match lang_list with
  | [] => .ok []
  | [tmp] =>
    match dget langs tmp with
    | some v => .ok [("Language", v)]
    | none =>
      match dget lang_grp tmp with
      | some v => .ok [("Language", v)]
      | none => .error (.keyError tmp)
  | _ =>
    match mapME (fun x =>
      match dget langs x with
      | some v => Except.ok ("\x7b\x7blanguage|" ++ v ++ "\x7d\x7d")
      | none => dgetE lang_grp x) lang_list with
    | .ok tpllist => .ok [("Language", String.intercalate ", " tpllist)]
    | .error e => .error e

/-- The conditional Description field from `marc['520'][0]['a'][0]`. -/
def desc_seg (marc : Marc) : Except PyErr (List (String × String)) :=
  match dget marc "520" with
  | none => .ok []
  | some insts => do
    let f ← headE insts
    let l ← dgetE f "a"
    let v ← headE l
    .ok [("Description", v)]

/-- The Source field value `'{{Kramerius link|%s|%s}}' % tuple(objid.split('/'))`:
the object id must split into exactly two parts (otherwise the tuple does
not match the two format placeholders and a `TypeError` is raised). -/
def kramerius_link (objid : String) : Except PyErr String :=
  match pySplit (Char.ofNat 47) objid with
  | [a, b] => .ok ("\x7b\x7bKramerius link|" ++ a ++ "|" ++ b ++ "\x7d\x7d")
  | _ => .error .typeError

/-- The ordered description field list built by `make_description`,
parameterised by the parsed MARC record, the Dublin-Core language values
and the METS object id. The segments appear in the fixed source order. -/
def build_fields (marc : Marc) (lang_list : List String) (objid : String) :
    Except PyErr (List (String × String)) := do
  let aL ← mapME join_name (author_sel marc)
  let eL ← mapME join_name (editor_sel marc)
  let tL ← mapME join_name (translator_sel marc)
  let iL ← mapME join_name (illust_sel marc)
  let m245 ← dgetE marc "245"
  let titlefield := buildTitlefield m245
  let aVals ← dgetE titlefield "a"
  let title ← headE aVals
  let subSeg ← subtitle_seg titlefield
  let serSeg ← series_seg marc
  let pubSeg ← pub_seg marc
  let langSeg ← lang_fields lang_list
  let descSeg ← desc_seg marc
  let source ← kramerius_link objid
  .ok (person_seg "Author" aL ++ person_seg "Translator" tL
    ++ person_seg "Editor" eL ++ person_seg "Illustrator" iL
    ++ [("Title", title)] ++ subSeg ++ serSeg
    ++ volume_seg titlefield ++ pubSeg ++ langSeg ++ descSeg
    ++ [("Source", source), ("Permission", "\x7b\x7bPD-old\x7d\x7d"),
        ("Image page", "1"), ("Wikisource", ":s:cs:Index:\x7b\x7bPAGENAME\x7d\x7d")])

/-- Serialize the field list into the wiki Book template block. -/
def render (ret : List (String × String)) : String :=
  "\x7b\x7b" ++ String.intercalate "\n |"
    ("Book" :: ret.map (fun x => x.1 ++ " = " ++ x.2)) ++ "\n\x7d\x7d"

/-- A `mets:FLocat` location record of a file node. -/
structure FLocat where
  loctype : String
  href : String
deriving Repr, DecidableEq

/-- A `mets:file` node inside a file group. -/
structure FileNode where
  id : String
  use : String
  mimetype : String
  locats : List FLocat
deriving Repr, DecidableEq

/-- A `mets:fileGrp` node of the `mets:fileSec`. -/
structure FileGrp where
  use : String
  files : List FileNode
deriving Repr, DecidableEq

/-- A `mets:fptr` resource pointer child of a page div. -/
structure Fptr where
  fileid : String
deriving Repr, DecidableEq

/-- A page-level `mets:div` inside the page structure map, with its ORDER
attribute and its resource pointer children in document order. -/
structure PageDiv where
  order : String
  fptrs : List Fptr
deriving Repr, DecidableEq

/-- A top-level `mets:div` child of a structMap, with its TYPE attribute. -/
structure TopDiv where
  type : String
  pages : List PageDiv
deriving Repr, DecidableEq

/-- A `mets:structMap` section with its TYPE attribute. -/
structure StructMap where
  type : String
  divs : List TopDiv
deriving Repr, DecidableEq

/-- The Dublin-Core metadata node: its `dc:language` element texts in order. -/
structure DcNode where
  languages : List String
deriving Repr, DecidableEq

/-- A parsed METS manifest. `objid` is the OBJID attribute of the root;
`marcRecords` and `dcNodes` are the results of the two dmdSec XPath
queries of `make_description`; `fileGrps` the fileSec groups; `structMaps`
the structMap sections. -/
structure Mets where
  objid : String
  marcRecords : List (List Datafield)
  dcNodes : List DcNode
  fileGrps : List FileGrp
  structMaps : List StructMap
deriving Repr, DecidableEq

/-- Convert MARC and Dublin Core data into the wiki Book template
(`make_description`): requires exactly one MARC record node and exactly
one Dublin-Core node, then renders the ordered field list. -/
def make_description (xml : Mets) : Except PyErr String := do
  let marcnode ← single_node xml.marcRecords
  let dcnode ← single_node xml.dcNodes
  let fields ← build_fields (parse_marc marcnode) dcnode.languages xml.objid
  .ok (render fields)

/-- The `parse_filegroup` function: from a file group select the files with
`USE='Page'` and the given MIME type, and map each file id to the href of
its unique URL-type location record (any other location count is fatal). -/
def parse_filegroup (groupnode : FileGrp) (mimetype : String) :
    Except PyErr (Dict String) :=
  (groupnode.files.filter (fun f => f.use == "Page" && f.mimetype == mimetype)).foldlM
    (fun ret node => do
      let loc ← single_node (node.locats.filter (fun l => l.loctype == "URL"))
      Except.ok (dset ret node.id loc.href)) []

/-- The fileGrp XPath query `/m:mets/m:fileSec/m:fileGrp[@USE=use]`. -/
def grpQuery (xml : Mets) (use : String) : List FileGrp :=
  xml.fileGrps.filter (fun g => g.use == use)

/-- The structMap XPath query
`/m:mets/m:structMap[@TYPE='Pages']/m:div[@TYPE='Pages']`. -/
def structQuery (xml : Mets) : List TopDiv :=
  (xml.structMaps.filter (fun sm => sm.type == "Pages")).flatMap
    (fun sm => sm.divs.filter (fun d => d.type == "Pages"))

/-- One step of the fptr classification loop of `process_mets`: a pointed-to
id found in the image map sets the image URL; otherwise, if found in the
text map, it sets the text URL; otherwise it is ignored. -/
def classify_step (imgurls txturls : Dict String)
    (acc : Option String × Option String) (f : Fptr) : Option String × Option String :=
  match dget imgurls f.fileid with
  | some u => (some u, acc.2)
  | none =>
    match dget txturls f.fileid with
    | some u => (acc.1, some u)
    | none => acc

/-- The fptr classification loop over one page div, starting from
`img = txt = None`. -/
def classify_fptrs (imgurls txturls : Dict String) (fptrs : List Fptr) :
    Option String × Option String :=
  fptrs.foldl (classify_step imgurls txturls) (none, none)

/-- The page pairing loop of `process_mets`: each page div must resolve an
image URL (text URLs are optional); a page without one raises a
`RuntimeError` naming the page's ORDER attribute. -/
def build_pageurls (filename : String) (imgurls txturls : Dict String) :
    List PageDiv → Except PyErr (List (String × Option String))
  | [] => .ok []
  | node :: rest =>
    match classify_fptrs imgurls txturls node.fptrs with
    | (none, _) =>
      .error (.runtimeError (filename ++ ": No image URL for page " ++ node.order))
    | (some img, txt) => do
      let r ← build_pageurls filename imgurls txturls rest
      .ok ((img, txt) :: r)

/-- The pure parsing phase of `process_mets`, up to the point where
downloads begin: locate the image and text groups, build the URL maps,
signal a skip (`none`) when the image map is empty, otherwise pair the
pages via the structMap and build the description. -/
def parse_phase (filename : String) (xml : Mets) :
    Except PyErr (Option (List (String × Option String) × String)) := do
  let imgfiles ← single_node (grpQuery xml "img")
  let imgurls ← parse_filegroup imgfiles "image/vnd.djvu"
  let txtfiles ← single_node (grpQuery xml "txt")
  let _txturls ← parse_filegroup txtfiles "text/plain"
  if imgurls.isEmpty then
    .ok none
  else do
    let structnode ← single_node (structQuery xml)
    let pageurls ← build_pageurls filename imgurls _txturls structnode.pages
    let description ← make_description xml
    .ok (some (pageurls, description))

/-- An HTTP response: success flag (`raise_for_status` raises on failure),
raw body bytes, and the declared wire character encoding (which the script
deliberately ignores for text resources, forcing UTF-8). -/
structure Response where
  ok : Bool
  body : List Nat
  encoding : Option String
deriving Repr, DecidableEq

/-- The djvused script built by `set_djvu_text`: `select 1; set-txt;`
followed by the s-expression `(page 0 0 w-1 h-1 text)`. Modelled
structurally: the selected page, the s-expression head symbol, the four
bounding box coordinates and the raw text. -/
structure DjvusedScript where
  selectPage : Nat
  head : String
  x0 : Int
  y0 : Int
  x1 : Int
  y1 : Int
  text : String
deriving Repr, DecidableEq

/-- Observable side effects of the pipeline, in order of occurrence. -/
inductive Event where
  | printLine (s : String)
  | fetchImg (url : String)
  | writeFile (path : String) (data : List Nat)
  | fetchTxt (url : String)
  | djvused (path : String) (script : DjvusedScript)
  | djvm (outfile : String) (pages : List String)
deriving Repr, DecidableEq

/-- The external world: HTTP responses per URL, byte-to-text decoding per
charset, page dimensions (per written page file and page index, modelling
`doc.pages[i].width/height`), and exit codes of the two external tools. -/
structure Env where
  imgResp : String → Response
  txtResp : String → Response
  decode : String → List Nat → String
  pageDims : String → Nat → Int × Int
  djvusedExit : String → DjvusedScript → Int
  djvmExit : String → List String → Int

/-- The `set_djvu_text` function: read the width and height of page index 0
of the page file, build the positioning command `(page 0 0 w-1 h-1 text)`
with `select 1`, and run djvused; a nonzero exit status raises
`ChildProcessError`. -/
def set_djvu_text (env : Env) (filename : String) (text : String) :
    List Event × Option PyErr :=
  let wh := env.pageDims filename 0
  let script : DjvusedScript := ⟨1, "page", 0, 0, wh.1 - 1, wh.2 - 1, text⟩
  if env.djvusedExit filename script != 0 then
    ([Event.djvused filename script],
      some (.childProcessError "Failed to create DJVU text layer"))
  else
    ([Event.djvused filename script], none)

/-- The `merge_djvu` function: run `djvm -c outfile page1 page2 ...`; a
nonzero exit status raises `ChildProcessError`. -/
def merge_djvu (env : Env) (outfile : String) (pagelist : List String) :
    List Event × Option PyErr :=
  if env.djvmExit outfile pagelist != 0 then
    ([Event.djvm outfile pagelist],
      some (.childProcessError "Failed to merge pages into single DJVU file"))
  else
    ([Event.djvm outfile pagelist], none)

/-- The page counter format `'page-%04d.djvu' % pagenum`: at least four
digits, zero padded. -/
def fmt4 (n : Nat) : String :=
  let s := toString n
  String.mk (List.replicate (4 - s.length) (Char.ofNat 48)) ++ s

/-- The temporary page file path `os.path.join(tempdir, 'page-%04d.djvu' % n)`. -/
def page_path (tempdir : String) (pagenum : Nat) : String :=
  tempdir ++ "/page-" ++ fmt4 pagenum ++ ".djvu"

/-- The download loop of `process_mets`: for each (image URL, optional text
URL) pair, numbered from `pagenum`, fetch the image (HTTP failure raises),
write it to the numbered temporary file, and when a text URL is present
fetch it, force the UTF-8 encoding, strip carriage returns and attach it
via `set_djvu_text`. Returns the event trace, the accumulated page file
list and the first error, if any. -/
def download_pages (env : Env) (tempdir : String) :
    Nat → List (String × Option String) → List Event × List String × Option PyErr
  | _, [] => ([], [], none)
  | pagenum, (img, txt) :: rest =>
    let pagefile := page_path tempdir pagenum
    let resp := env.imgResp img
    if resp.ok = false then
      ([Event.fetchImg img], [], some .httpError)
    else
      let evs1 := [Event.fetchImg img, Event.writeFile pagefile resp.body]
      match txt with
      | none =>
        let r := download_pages env tempdir (pagenum + 1) rest
        (evs1 ++ r.1, pagefile :: r.2.1, r.2.2)
      | some t =>
        let tresp := env.txtResp t
        if tresp.ok = false then
          (evs1 ++ [Event.fetchTxt t], [], some .httpError)
        else
          let text := stripChar (Char.ofNat 13) (env.decode "utf-8" tresp.body)
          let s := set_djvu_text env pagefile text
          match s.2 with
          | some e => (evs1 ++ [Event.fetchTxt t] ++ s.1, [], some e)
          | none =>
            let r := download_pages env tempdir (pagenum + 1) rest
            (evs1 ++ [Event.fetchTxt t] ++ s.1 ++ r.1, pagefile :: r.2.1, r.2.2)

/-- The output file name: `os.path.basename(filename)` for a POSIX path. -/
def basename (p : String) : String := (pySplit (Char.ofNat 47) p).getLastD p

/-- The stem computation `s.rsplit('.', 1)[0]`: everything before the last
dot, or the whole string when it contains no dot. -/
def stem (s : String) : String :=
  let parts := pySplit (Char.ofNat 46) s
  if parts.length == 1 then s else String.intercalate "." parts.dropLast

/-- The output file name computed by `process_mets`. -/
def outfile_of (filename : String) : String :=
  stem (basename filename) ++ ".djvu"

/-- The `process_mets` function: parse the manifest; on an empty image map
print a diagnostic and return; otherwise download all pages in manifest
order, merge them into the output file, and print the output name, the
description and a blank line. Errors abort with the trace so far. -/
def process_mets (env : Env) (tempdir filename : String) (xml : Mets) :
    List Event × Option PyErr :=
  match parse_phase filename xml with
  | .error e => ([], some e)
  | .ok none => ([Event.printLine ("No DJVU pages found in " ++ filename)], none)
  | .ok (some (pageurls, description)) =>
    match download_pages env tempdir 1 pageurls with
    | (evs, _, some e) => (evs, some e)
    | (evs, pagelist, none) =>
      let m := merge_djvu env (outfile_of filename) pagelist
      match m.2 with
      | some e => (evs ++ m.1, some e)
      | none => (evs ++ m.1 ++ [Event.printLine (outfile_of filename),
          Event.printLine description, Event.printLine ""], none)

/-- The batch loop of the `__main__` block: process the input files in
argument order inside a single try block; the first uncaught exception
leaves the loop, is caught and logged (`traceback.print_exc`), and the
remaining files are never processed. Returns the per-file event traces of
the attempted files and the logged error, if any. -/
def batch_run (step : String → List Event × Option PyErr) :
    List String → List (String × List Event) × Option PyErr
  | [] => ([], none)
  | f :: rest =>
    let r := step f
    match r.2 with
    | some e => ([(f, r.1)], some e)
    | none =>
      let b := batch_run step rest
      ((f, r.1) :: b.1, b.2)

/-- The temporary page files written during a trace, in order. -/
def writes (l : List Event) : List String :=
  l.filterMap (fun e => match e with | .writeFile p _ => some p | _ => none)

/-- The merge tool invocations of a trace, in order. -/
def mergeCalls (l : List Event) : List (String × List String) :=
  l.filterMap (fun e => match e with | .djvm o p => some (o, p) | _ => none)

/-- The text-layer tool invocations of a trace, in order. -/
def djvusedCalls (l : List Event) : List (String × DjvusedScript) :=
  l.filterMap (fun e => match e with | .djvused p s => some (p, s) | _ => none)

/-- The fixed field order of the Description Field List. -/
def masterOrder : List String :=
  ["Author", "Translator", "Editor", "Illustrator", "Title", "Subtitle",
   "Series title", "Volume", "Publisher", "Printer", "Date", "City",
   "Language", "Description", "Source", "Permission", "Image page", "Wikisource"]

/-- The title mapping computed by `make_description`, expressed directly on
the parsed record (meaningful when tag 245 is present). -/
def titlefield_of (marc : Marc) : Dict (List String) :=
  buildTitlefield ((dget marc "245").getD [])

/-- The first tag-260 instance, expressed directly on the parsed record
(meaningful when tag 260 is present and non-empty). -/
def pubf_of (marc : Marc) : Dict (List String) :=
  (((dget marc "260").getD []).head?).getD []

/-- Labels contributed by the publication block for a given first tag-260
instance. -/
def pub_labels (pf : Dict (List String)) : List String :=
  (if dmem pf "b" then ["Publisher"] else []) ++
  (if dmem pf "f" then ["Printer"] else []) ++
  (if dmem pf "c" then ["Date"] else []) ++
  (if dmem pf "a" then ["City"] else [])

/-- Spec-side characterization of the emitted labels: each conditional
field appears exactly when its source data is non-empty, in the fixed
order of the specification. -/
def fieldLabels (marc : Marc) (lang_list : List String) : List String :=
  (if (author_sel marc).isEmpty then [] else ["Author"]) ++
  (if (translator_sel marc).isEmpty then [] else ["Translator"]) ++
  (if (editor_sel marc).isEmpty then [] else ["Editor"]) ++
  (if (illust_sel marc).isEmpty then [] else ["Illustrator"]) ++
  ["Title"] ++
  (if dmem (titlefield_of marc) "b" then ["Subtitle"] else []) ++
  (if dmem marc "440" then ["Series title"] else []) ++
  (if dmem (titlefield_of marc) "n" || dmem (titlefield_of marc) "p" then ["Volume"] else []) ++
  (if dmem marc "260" then pub_labels (pubf_of marc) else []) ++
  (if lang_list.isEmpty then [] else ["Language"]) ++
  (if dmem marc "520" then ["Description"] else []) ++
  ["Source", "Permission", "Image page", "Wikisource"]

/-- Spec-side rendering of one entry in the multi-language case: a language
code is wrapped in the language template around its two-letter code, a
group code appears as its unwrapped label, anything else is a fatal lookup
error. -/
def langEntrySpec (x : String) : Except PyErr String :=
  match dget langs x with
  | some v => .ok ("\x7b\x7blanguage|" ++ v ++ "\x7d\x7d")
  | none => dgetE lang_grp x

/-- Spec-side text of a fetched text resource: decoded with the forced
UTF-8 charset (the declared wire encoding is ignored) and with all
carriage returns stripped. -/
def txt_text_spec (env : Env) (t : String) : String :=
  stripChar (Char.ofNat 13) (env.decode "utf-8" (env.txtResp t).body)

/-- Spec-side djvused command for a page file: page index 0 dimensions,
bounding box (0, 0, width-1, height-1), followed by the raw text. -/
def djvusedScriptSpec (env : Env) (pf text : String) : DjvusedScript :=
  ⟨1, "page", 0, 0, (env.pageDims pf 0).1 - 1, (env.pageDims pf 0).2 - 1, text⟩

/-- The expected temporary page file names: `n` consecutive page paths
starting at counter value `k`. -/
def page_names (tempdir : String) (k n : Nat) : List String :=
  match n with
  | 0 => []
  | m + 1 => page_path tempdir k :: page_names tempdir (k + 1) m

/-- Spec-side image candidates of a page div: the image-map URLs of its
pointers, in document order. -/
def imgHits (imgurls : Dict String) (fptrs : List Fptr) : List String :=
  fptrs.filterMap (fun f => dget imgurls f.fileid)

/-- Spec-side text candidates of a page div: the text-map URLs of those
pointers that are NOT present in the image map, in document order. -/
def txtHits (imgurls txturls : Dict String) (fptrs : List Fptr) : List String :=
  fptrs.filterMap (fun f =>
    if dmem imgurls f.fileid then none else dget txturls f.fileid)

/-- A dict whose keys are pairwise distinct (true of every dict built by
`dset`, in particular of every `parse_marc` field instance). -/
abbrev keysNodup {α : Type} (d : Dict α) : Prop := (d.map Prod.fst).Nodup

/-- A constant benign environment for concrete runs: every fetch succeeds,
both external tools exit 0. -/
def constEnv : Env :=
  ⟨fun _ => ⟨true, [1], none⟩,
   fun _ => ⟨true, [13, 10, 65], some "ISO-8859-1"⟩,
   fun _ _ => "A\rB",
   fun _ _ => (100, 200),
   fun _ _ => 0,
   fun _ _ => 0⟩

/-- A well-formed two-page manifest: page 1 has image and text pointers,
page 2 only an image pointer. -/
def xmlGood : Mets :=
  ⟨"uuid/123",
   [[⟨"245", [("a", "T")]⟩]],
   [⟨[]⟩],
   [⟨"img", [⟨"IMG1", "Page", "image/vnd.djvu", [⟨"URL", "http://x/1.djvu"⟩]⟩,
             ⟨"IMG2", "Page", "image/vnd.djvu", [⟨"URL", "http://x/2.djvu"⟩]⟩]⟩,
    ⟨"txt", [⟨"TXT1", "Page", "text/plain", [⟨"URL", "http://x/1.txt"⟩]⟩]⟩],
   [⟨"Pages", [⟨"Pages", [⟨"1", [⟨"IMG1"⟩, ⟨"TXT1"⟩]⟩, ⟨"2", [⟨"IMG2"⟩]⟩]⟩]⟩]⟩

/-- A manifest whose image group has no page-use DJVU entries at all. -/
def xmlSkip : Mets :=
  ⟨"uuid/123", [[⟨"245", [("a", "T")]⟩]], [⟨[]⟩],
   [⟨"img", []⟩, ⟨"txt", []⟩],
   [⟨"Pages", [⟨"Pages", []⟩]⟩]⟩

/-- A manifest with a non-empty image group but no page-structure section. -/
def xmlNoStruct : Mets :=
  ⟨"uuid/123", [[⟨"245", [("a", "T")]⟩]], [⟨[]⟩],
   [⟨"img", [⟨"IMG1", "Page", "image/vnd.djvu", [⟨"URL", "http://x/1.djvu"⟩]⟩]⟩,
    ⟨"txt", []⟩],
   []⟩

/-- A manifest whose single page div points at an id that resolves in
neither resource map. -/
def xmlBadPage : Mets :=
  ⟨"uuid/123", [[⟨"245", [("a", "T")]⟩]], [⟨[]⟩],
   [⟨"img", [⟨"IMG1", "Page", "image/vnd.djvu", [⟨"URL", "http://x/1.djvu"⟩]⟩]⟩,
    ⟨"txt", []⟩],
   [⟨"Pages", [⟨"Pages", [⟨"7", [⟨"NOPE"⟩]⟩]⟩]⟩]⟩

/-- A batch of manifests keyed by file name: `b.xml` is structurally broken
(no page-structure section), the others are benign skips. -/
def batchManifest (f : String) : Mets :=
  if f == "b.xml" then xmlNoStruct else xmlSkip

/-- The per-file step of the modelled batch run over `batchManifest`. -/
def batchStep (f : String) : List Event × Option PyErr :=
  process_mets constEnv "/tmp" f (batchManifest f)

/-- A bibliographic record listing the tag-700 Translator BEFORE the
tag-100 Author, to exercise the fixed output order. -/
def recSwapped : List Datafield :=
  [⟨"700", [("a", "TrName"), ("e", "Translator")]⟩,
   ⟨"245", [("a", "T")]⟩,
   ⟨"100", [("a", "AuName"), ("e", "Author")]⟩]

/-! ### Basic lemmas about the dict and option helpers -/

theorem getLast?_cons_or {α : Type} (a : α) (l : List α) :
    (a :: l).getLast? = l.getLast?.or (some a) := by
  cases l with
  | nil => rfl
  | cons b m =>
    rw [List.getLast?_cons_cons]
    cases h : (b :: m).getLast? with
    | none => simp at h
    | some x => rfl

theorem dget_eq_dmem {α : Type} (d : Dict α) (k : String) :
    dmem d k = (dget d k).isSome := rfl

theorem dget_dset_self {α : Type} (d : Dict α) (k : String) (v : α) :
    dget (dset d k v) k = some v := by
  induction d with
  | nil => simp [dset, dget]
  | cons p rest ih =>
    by_cases h : p.1 = k
    · simp [dset, dget, h]
    · simp [dset, dget, h, ih]

theorem dget_dset_ne {α : Type} (d : Dict α) (k q : String) (v : α) (hq : q ≠ k) :
    dget (dset d k v) q = dget d q := by
  have hk : ¬k = q := fun h => hq (Eq.symm h)
  induction d with
  | nil => simp [dset, dget, hk]
  | cons p rest ih =>
    by_cases h : p.1 = k
    · simp [dset, dget, h, hk]
    · simp [dset, dget, h, ih]

theorem dget_eq_none_of_not_mem {α : Type} (d : Dict α) (k : String)
    (h : k ∉ d.map Prod.fst) : dget d k = none := by
  induction d with
  | nil => rfl
  | cons p rest ih =>
    simp only [List.map_cons, List.mem_cons] at h
    push_neg at h
    have hp : ¬p.1 = k := fun hc => h.1 (Eq.symm hc)
    simp [dget, hp, ih h.2]

theorem mapME_length {α β : Type} (f : α → Except PyErr β) :
    ∀ {l : List α} {l2 : List β}, mapME f l = .ok l2 → l2.length = l.length := by
  intro l
  induction l with
  | nil =>
    intro l2 h
    simp [mapME] at h
    simp [← h]
  | cons x rest ih =>
    intro l2 h
    simp only [mapME] at h
    cases hx : f x with
    | error e => rw [hx] at h; exact absurd h (by simp [Bind.bind, Except.bind])
    | ok y =>
      rw [hx] at h
      cases hr : mapME f rest with
      | error e => rw [hr] at h; exact absurd h (by simp [Bind.bind, Except.bind])
      | ok r =>
        rw [hr] at h
        simp [Bind.bind, Except.bind] at h
        simp [← h, ih hr]

theorem mapME_isEmpty {α β : Type} (f : α → Except PyErr β) {l : List α}
    {l2 : List β} (h : mapME f l = .ok l2) : l2.isEmpty = l.isEmpty := by
  cases l with
  | nil => simp [mapME] at h; simp [← h]
  | cons x rest =>
    cases l2 with
    | nil =>
      have := mapME_length f h
      simp at this
    | cons y r => rfl

/-! ### C9: classification of resource pointers -/

theorem classify_foldl (imgurls txturls : Dict String) :
    ∀ (fptrs : List Fptr) (acc : Option String × Option String),
      fptrs.foldl (classify_step imgurls txturls) acc =
        ((imgHits imgurls fptrs).getLast?.or acc.1,
         (txtHits imgurls txturls fptrs).getLast?.or acc.2) := by
  intro fptrs
  induction fptrs with
  | nil => intro acc; simp [imgHits, txtHits]
  | cons f rest ih =>
    intro acc
    rw [List.foldl_cons, ih]
    cases hi : dget imgurls f.fileid with
    | some u =>
      have h1 : imgHits imgurls (f :: rest) = u :: imgHits imgurls rest := by
        simp [imgHits, hi]
      have h2 : txtHits imgurls txturls (f :: rest) = txtHits imgurls txturls rest := by
        simp [txtHits, dmem, hi]
      rw [h1, h2, getLast?_cons_or, Option.or_assoc]
      simp [classify_step, hi]
    | none =>
      cases ht : dget txturls f.fileid with
      | some u =>
        have h1 : imgHits imgurls (f :: rest) = imgHits imgurls rest := by
          simp [imgHits, hi]
        have h2 : txtHits imgurls txturls (f :: rest) = u :: txtHits imgurls txturls rest := by
          simp [txtHits, dmem, hi, ht]
        rw [h1, h2, getLast?_cons_or, Option.or_assoc]
        simp [classify_step, hi, ht]
      | none =>
        have h1 : imgHits imgurls (f :: rest) = imgHits imgurls rest := by
          simp [imgHits, hi]
        have h2 : txtHits imgurls txturls (f :: rest) = txtHits imgurls txturls rest := by
          simp [txtHits, dmem, hi, ht]
        rw [h1, h2]
        simp [classify_step, hi, ht]

theorem classify_fptrs_eq (imgurls txturls : Dict String) (fptrs : List Fptr) :
    classify_fptrs imgurls txturls fptrs =
      ((imgHits imgurls fptrs).getLast?, (txtHits imgurls txturls fptrs).getLast?) := by
  rw [classify_fptrs, classify_foldl]
  simp [Option.or_none]

/-- C9: resource-pointer ids are classified against the image map first with
an exclusive elif. The image component of the classification is the LAST
pointer resolving in the image map; the text component is the LAST pointer
resolving in the text map among those NOT present in the image map. In
particular an id present in both maps only ever contributes an image
locator, and later pointers overwrite earlier ones within the same map. -/
theorem classify_fptrs_spec (imgurls txturls : Dict String) (fptrs : List Fptr) :
    classify_fptrs imgurls txturls fptrs =
      ((imgHits imgurls fptrs).getLast?, (txtHits imgurls txturls fptrs).getLast?) :=
  classify_fptrs_eq imgurls txturls fptrs

/-! ### C10: the 245 title mapping -/

theorem dget_insertAll {α : Type} :
    ∀ (f : Dict α), keysNodup f → ∀ (acc : Dict α) (q : String),
      dget (f.foldl (fun a kv => dset a kv.1 kv.2) acc) q = (dget f q).or (dget acc q) := by
  intro f
  induction f with
  | nil => intro _ acc q; simp [dget]
  | cons p rest ih =>
    intro hf acc q
    have hnd : keysNodup rest := (List.nodup_cons.mp hf).2
    have hnot : p.1 ∉ rest.map Prod.fst := (List.nodup_cons.mp hf).1
    rw [List.foldl_cons, ih hnd]
    by_cases hq : q = p.1
    · rw [hq, dget_eq_none_of_not_mem rest p.1 hnot, dget_dset_self]
      simp [dget]
    · have hne : ¬p.1 = q := fun h => hq (Eq.symm h)
      rw [dget_dset_ne acc p.1 q p.2 hq]
      simp [dget, hne]

theorem dget_foldl_titlefield :
    ∀ (insts : List (Dict (List String))), (∀ f ∈ insts, keysNodup f) →
    ∀ (acc : Dict (List String)) (q : String),
      dget (insts.foldl (fun a f => f.foldl (fun a2 kv => dset a2 kv.1 kv.2) a) acc) q
        = ((insts.filterMap (fun f => dget f q)).getLast?).or (dget acc q) := by
  intro insts
  induction insts with
  | nil => intro _ acc q; simp
  | cons f rest ih =>
    intro h acc q
    have hf : keysNodup f := h f (List.mem_cons_self f rest)
    have hrest : ∀ g ∈ rest, keysNodup g := fun g hg => h g (List.mem_cons_of_mem f hg)
    rw [List.foldl_cons, ih hrest, dget_insertAll f hf]
    cases hv : dget f q with
    | none => simp [List.filterMap_cons, hv]
    | some v =>
      simp only [List.filterMap_cons, hv, getLast?_cons_or, Option.or_assoc]

theorem dset_not_mem_append {α : Type} :
    ∀ (d : Dict α) (k : String) (v : α), k ∉ d.map Prod.fst →
      dset d k v = d ++ [(k, v)] := by
  intro d
  induction d with
  | nil => intro k v _; rfl
  | cons p rest ih =>
    intro k v h
    simp only [List.map_cons, List.mem_cons] at h
    push_neg at h
    have hp : ¬p.1 = k := fun hc => h.1 (Eq.symm hc)
    simp [dset, hp, ih k v h.2]

theorem insertAll_disjoint {α : Type} :
    ∀ (f : Dict α), keysNodup f → ∀ (acc : Dict α),
      (∀ k ∈ f.map Prod.fst, k ∉ acc.map Prod.fst) →
      f.foldl (fun a kv => dset a kv.1 kv.2) acc = acc ++ f := by
  intro f
  induction f with
  | nil => intro _ acc _; simp
  | cons p rest ih =>
    intro hf acc hd
    have hnd : keysNodup rest := (List.nodup_cons.mp hf).2
    have hnot : p.1 ∉ rest.map Prod.fst := (List.nodup_cons.mp hf).1
    have hpacc : p.1 ∉ acc.map Prod.fst :=
      hd p.1 (by simp)
    rw [List.foldl_cons, dset_not_mem_append acc p.1 p.2 hpacc,
      ih hnd (acc ++ [(p.1, p.2)]) ?_]
    · simp
    · intro k hk
      simp only [List.map_append, List.mem_append, List.map_cons, List.map_nil,
        List.mem_singleton]
      push_neg
      constructor
      · exact hd k (by simp [hk])
      · intro hkp
        exact hnot (hkp ▸ hk)

/-- C10: the title mapping merges the subfield dicts of ALL tag-245
instances in document order, each subfield code taking the value list of
the last instance containing it; and when there is exactly one instance
the mapping is that instance itself, so Title and Subtitle come from it. -/
theorem titlefield_last_instance_wins (insts : List (Dict (List String)))
    (h : ∀ f ∈ insts, keysNodup f) :
    (∀ k, dget (buildTitlefield insts) k
        = (insts.filterMap (fun f => dget f k)).getLast?)
    ∧ (∀ f, insts = [f] → buildTitlefield insts = f) := by
  constructor
  · intro k
    rw [buildTitlefield, dget_foldl_titlefield insts h [] k]
    simp [dget]
  · intro f hf
    subst hf
    have hnd : keysNodup f := h f (by simp)
    rw [buildTitlefield, List.foldl_cons]
    have := insertAll_disjoint f hnd [] (by simp)
    simpa using this

/-- Witness for C10 at a concrete pair of instances overlapping in
subfield a: the second instance wins. -/
theorem titlefield_last_instance_wins_witness :
    (∀ f ∈ ([[("a", ["T1"]), ("b", ["S1"])], [("a", ["T2"])]] :
        List (Dict (List String))), keysNodup f)
    ∧ dget (buildTitlefield [[("a", ["T1"]), ("b", ["S1"])], [("a", ["T2"])]]) "a"
        = ([[("a", ["T1"]), ("b", ["S1"])], [("a", ["T2"])]].filterMap
            (fun f => dget f "a")).getLast? := by
  constructor
  · decide
  · exact (titlefield_last_instance_wins _ (by decide)).1 "a"

/-! ### C5: language field resolution -/

theorem lang_fields_multi (x y : String) (l : List String) :
    lang_fields (x :: y :: l) =
      match mapME langEntrySpec (x :: y :: l) with
      | .ok tpllist => .ok [("Language", String.intercalate ", " tpllist)]
      | .error e => .error e := rfl

/-- C5: an empty language list emits no Language field; a single value
emits the mapped two-letter code or the unwrapped group label, with an
unknown code a fatal KeyError; two or more values emit one comma-joined
Language field where language codes are wrapped in the language template
and group codes stay unwrapped (per-entry rendering `langEntrySpec`),
with the concrete examples of the specification. -/
theorem lang_fields_resolution :
    lang_fields [] = .ok []
    ∧ (∀ c v, dget langs c = some v → lang_fields [c] = .ok [("Language", v)])
    ∧ (∀ c v, dget langs c = none → dget lang_grp c = some v →
        lang_fields [c] = .ok [("Language", v)])
    ∧ (∀ c, dget langs c = none → dget lang_grp c = none →
        lang_fields [c] = .error (.keyError c))
    ∧ (∀ x y l, lang_fields (x :: y :: l)
        = Except.map (fun t => [("Language", String.intercalate ", " t)])
            (mapME langEntrySpec (x :: y :: l)))
    ∧ lang_fields ["cze"] = .ok [("Language", "cs")]
    ∧ lang_fields ["cze", "eng"]
        = .ok [("Language", "\x7b\x7blanguage|cs\x7d\x7d, \x7b\x7blanguage|en\x7d\x7d")]
    ∧ lang_fields ["mul"] = .ok [("Language", "(Multiple unspecified languages)")] := by
  refine ⟨rfl, ?_, ?_, ?_, ?_, rfl, rfl, rfl⟩
  · intro c v h
    simp [lang_fields, h]
  · intro c v h1 h2
    simp [lang_fields, h1, h2]
  · intro c h1 h2
    simp [lang_fields, h1, h2]
  · intro x y l
    rw [lang_fields_multi]
    cases h : mapME langEntrySpec (x :: y :: l) <;> simp [Except.map]

/-- Witness for C5 at the concrete single-language input of the spec. -/
theorem lang_fields_resolution_witness :
    dget langs "cze" = some "cs" ∧ lang_fields ["cze"] = .ok [("Language", "cs")] :=
  ⟨rfl, lang_fields_resolution.2.1 "cze" "cs" rfl⟩

/-! ### C6: fixed field order of the description list -/

theorem bind_ok {α β : Type} {x : Except PyErr α} {f : α → Except PyErr β} {b : β}
    (h : (x >>= f) = .ok b) : ∃ a, x = .ok a ∧ f a = .ok b := by
  cases x with
  | ok a => exact ⟨a, rfl, h⟩
  | error e => exact absurd h (by simp [Bind.bind, Except.bind])

theorem dgetE_ok {α : Type} {d : Dict α} {k : String} {v : α}
    (h : dgetE d k = .ok v) : dget d k = some v := by
  unfold dgetE at h
  cases hd : dget d k with
  | none => rw [hd] at h; exact absurd h (by simp)
  | some w => rw [hd] at h; simp at h; rw [h]

theorem person_seg_labels (label : String) (l : List String) :
    (person_seg label l).map Prod.fst = if l.isEmpty then [] else [label] := by
  unfold person_seg; split <;> rfl

theorem volume_seg_labels (tf : Dict (List String)) :
    (volume_seg tf).map Prod.fst
      = if dmem tf "n" || dmem tf "p" then ["Volume"] else [] := by
  unfold volume_seg; split <;> rfl

theorem subtitle_seg_labels {tf : Dict (List String)} {s : List (String × String)}
    (h : subtitle_seg tf = .ok s) :
    s.map Prod.fst = if dmem tf "b" then ["Subtitle"] else [] := by
  unfold subtitle_seg at h
  cases hb : dget tf "b" with
  | none =>
    rw [hb] at h; simp at h
    simp [← h, dmem, hb]
  | some l =>
    rw [hb] at h
    cases l with
    | nil => exact absurd h (by simp [headE, Bind.bind, Except.bind])
    | cons v rest =>
      simp [headE, Bind.bind, Except.bind] at h
      simp [← h, dmem, hb]

theorem series_seg_labels {marc : Marc} {s : List (String × String)}
    (h : series_seg marc = .ok s) :
    s.map Prod.fst = if dmem marc "440" then ["Series title"] else [] := by
  unfold series_seg at h
  cases hb : dget marc "440" with
  | none =>
    rw [hb] at h; simp at h
    simp [← h, dmem, hb]
  | some insts =>
    rw [hb] at h
    obtain ⟨f, hf, h⟩ := bind_ok h
    obtain ⟨aVals, ha, h⟩ := bind_ok h
    simp at h
    simp [← h, dmem, hb]

theorem desc_seg_labels {marc : Marc} {s : List (String × String)}
    (h : desc_seg marc = .ok s) :
    s.map Prod.fst = if dmem marc "520" then ["Description"] else [] := by
  unfold desc_seg at h
  cases hb : dget marc "520" with
  | none =>
    rw [hb] at h; simp at h
    simp [← h, dmem, hb]
  | some insts =>
    rw [hb] at h
    obtain ⟨f, hf, h⟩ := bind_ok h
    obtain ⟨l, hl, h⟩ := bind_ok h
    obtain ⟨v, hv, h⟩ := bind_ok h
    simp at h
    simp [← h, dmem, hb]

theorem pub_item_labels {pf : Dict (List String)} {code label : String}
    {s : List (String × String)} (h : pub_item pf code label = .ok s) :
    s.map Prod.fst = if dmem pf code then [label] else [] := by
  unfold pub_item at h
  cases hb : dget pf code with
  | none =>
    rw [hb] at h; simp at h
    simp [← h, dmem, hb]
  | some l =>
    rw [hb] at h
    obtain ⟨v, hv, h⟩ := bind_ok h
    simp at h
    simp [← h, dmem, hb]

theorem lang_fields_single (t : String) :
    lang_fields [t] =
      match dget langs t with
      | some v => .ok [("Language", v)]
      | none =>
        match dget lang_grp t with
        | some v => .ok [("Language", v)]
        | none => .error (.keyError t) := rfl

theorem pub_seg_labels {marc : Marc} {s : List (String × String)}
    (h : pub_seg marc = .ok s) :
    s.map Prod.fst = if dmem marc "260" then pub_labels (pubf_of marc) else [] := by
  unfold pub_seg at h
  split at h
  next hb =>
    simp at h
    simp [← h, dmem, hb]
  next insts hb =>
    cases insts with
    | nil => exact absurd h (by simp [headE, Bind.bind, Except.bind])
    | cons pf rest =>
      simp only [headE] at h
      obtain ⟨pf2, hpf, h⟩ := bind_ok h
      simp at hpf
      rw [← hpf] at h
      obtain ⟨s1, h1, h⟩ := bind_ok h
      obtain ⟨s2, h2, h⟩ := bind_ok h
      obtain ⟨s3, h3, h⟩ := bind_ok h
      obtain ⟨s4, h4, h⟩ := bind_ok h
      simp at h
      rw [← h]
      simp only [List.map_append, pub_item_labels h1, pub_item_labels h2,
        pub_item_labels h3, pub_item_labels h4]
      simp [dmem, hb, pub_labels, pubf_of]

theorem lang_fields_labels {ll : List String} {s : List (String × String)}
    (h : lang_fields ll = .ok s) :
    s.map Prod.fst = if ll.isEmpty then [] else ["Language"] := by
  match ll with
  | [] =>
    simp [lang_fields] at h
    simp [← h]
  | [t] =>
    rw [lang_fields_single] at h
    cases h1 : dget langs t with
    | some v =>
      rw [h1] at h; simp at h
      simp [← h]
    | none =>
      rw [h1] at h
      cases h2 : dget lang_grp t with
      | some v =>
        rw [h2] at h; simp at h
        simp [← h]
      | none => rw [h2] at h; exact absurd h (by simp)
  | x :: y :: l =>
    rw [lang_fields_multi] at h
    cases hm : mapME langEntrySpec (x :: y :: l) with
    | ok t =>
      rw [hm] at h; simp at h
      simp [← h]
    | error e => rw [hm] at h; exact absurd h (by simp)

theorem ite_nil_left_sublist {α : Type} (c : Prop) [Decidable c] (x : α) :
    List.Sublist (if c then [] else [x]) [x] := by
  split
  · exact List.nil_sublist [x]
  · exact List.Sublist.refl [x]

theorem ite_nil_right_sublist {α : Type} (c : Prop) [Decidable c] (x : α) :
    List.Sublist (if c then [x] else []) [x] := by
  split
  · exact List.Sublist.refl [x]
  · exact List.nil_sublist [x]

theorem pub_labels_sublist (pf : Dict (List String)) :
    List.Sublist (pub_labels pf) (["Publisher"] ++ ["Printer"] ++ ["Date"] ++ ["City"]) := by
  unfold pub_labels
  exact ((((ite_nil_right_sublist _ _).append
    (ite_nil_right_sublist _ _)).append
    (ite_nil_right_sublist _ _)).append
    (ite_nil_right_sublist _ _))

theorem fieldLabels_sublist (marc : Marc) (ll : List String) :
    List.Sublist (fieldLabels marc ll) masterOrder := by
  show List.Sublist (fieldLabels marc ll)
    (["Author"] ++ ["Translator"] ++ ["Editor"] ++ ["Illustrator"] ++ ["Title"]
      ++ ["Subtitle"] ++ ["Series title"] ++ ["Volume"]
      ++ (["Publisher"] ++ ["Printer"] ++ ["Date"] ++ ["City"])
      ++ ["Language"] ++ ["Description"]
      ++ ["Source", "Permission", "Image page", "Wikisource"])
  unfold fieldLabels
  have hpub : List.Sublist (if dmem marc "260" then pub_labels (pubf_of marc) else [])
      (["Publisher"] ++ ["Printer"] ++ ["Date"] ++ ["City"]) := by
    split
    · exact pub_labels_sublist (pubf_of marc)
    · exact List.nil_sublist _
  exact (((((((((((
    (ite_nil_left_sublist _ _).append
    (ite_nil_left_sublist _ _)).append
    (ite_nil_left_sublist _ _)).append
    (ite_nil_left_sublist _ _)).append
    (List.Sublist.refl ["Title"])).append
    (ite_nil_right_sublist _ _)).append
    (ite_nil_right_sublist _ _)).append
    (ite_nil_right_sublist _ _)).append
    hpub).append
    (ite_nil_left_sublist _ _)).append
    (ite_nil_right_sublist _ _)).append
    (List.Sublist.refl ["Source", "Permission", "Image page", "Wikisource"]))

/-- C6: the description field list of a successfully mapped record carries
exactly the labels `fieldLabels`: every conditional field is present
exactly when its source data is non-empty, and the labels appear in the
fixed master order (so an Author entry always precedes a Translator
entry, regardless of tag order in the input record). -/
theorem description_fields_order (marc : Marc) (lang_list : List String)
    (objid : String) (fields : List (String × String))
    (h : build_fields marc lang_list objid = .ok fields) :
    fields.map Prod.fst = fieldLabels marc lang_list
    ∧ List.Sublist (fields.map Prod.fst) masterOrder := by
  unfold build_fields at h
  obtain ⟨aL, haL, h⟩ := bind_ok h
  obtain ⟨eL, heL, h⟩ := bind_ok h
  obtain ⟨tL, htL, h⟩ := bind_ok h
  obtain ⟨iL, hiL, h⟩ := bind_ok h
  obtain ⟨m245, hm, h⟩ := bind_ok h
  obtain ⟨aVals, hav, h⟩ := bind_ok h
  obtain ⟨title, hti, h⟩ := bind_ok h
  obtain ⟨subSeg, hsub, h⟩ := bind_ok h
  obtain ⟨serSeg, hser, h⟩ := bind_ok h
  obtain ⟨pubSeg, hpub, h⟩ := bind_ok h
  obtain ⟨langSeg, hlang, h⟩ := bind_ok h
  obtain ⟨descSeg, hdesc, h⟩ := bind_ok h
  obtain ⟨source, hsrc, h⟩ := bind_ok h
  simp at h
  have hmain : fields.map Prod.fst = fieldLabels marc lang_list := by
    rw [← h]
    simp only [List.map_append, List.map_cons, List.map_nil, person_seg_labels,
      volume_seg_labels]
    rw [mapME_isEmpty join_name haL, mapME_isEmpty join_name heL,
      mapME_isEmpty join_name htL, mapME_isEmpty join_name hiL,
      subtitle_seg_labels hsub, series_seg_labels hser, pub_seg_labels hpub,
      lang_fields_labels hlang, desc_seg_labels hdesc]
    have h245 : dget marc "245" = some m245 := dgetE_ok hm
    simp [fieldLabels, titlefield_of, h245]
  constructor
  · exact hmain
  · rw [hmain]
    exact fieldLabels_sublist marc lang_list

/-- The description fields computed for `recSwapped`. -/
def recSwappedFields : List (String × String) :=
  [("Author", "AuName"), ("Translator", "TrName"), ("Title", "T"),
   ("Source", "\x7b\x7bKramerius link|uuid|1\x7d\x7d"),
   ("Permission", "\x7b\x7bPD-old\x7d\x7d"), ("Image page", "1"),
   ("Wikisource", ":s:cs:Index:\x7b\x7bPAGENAME\x7d\x7d")]

/-- Witness for C6: on a record listing the tag-700 Translator before the
tag-100 Author, the mapper still emits the Author entry before the
Translator entry, and the labels follow the fixed master order. -/
theorem description_fields_order_witness :
    build_fields (parse_marc recSwapped) [] "uuid/1" = .ok recSwappedFields
    ∧ (recSwappedFields.map Prod.fst = fieldLabels (parse_marc recSwapped) []
        ∧ List.Sublist (recSwappedFields.map Prod.fst) masterOrder)
    ∧ (recSwappedFields.map Prod.fst).indexOf "Author"
        < (recSwappedFields.map Prod.fst).indexOf "Translator" := by
  refine ⟨rfl, description_fields_order (parse_marc recSwapped) [] "uuid/1"
    recSwappedFields rfl, ?_⟩
  decide

/-! ### Lemmas on the download loop and the assembly pipeline -/

@[simp] theorem writes_nil : writes [] = [] := rfl

@[simp] theorem writes_cons_print (s : String) (l : List Event) :
    writes (Event.printLine s :: l) = writes l := rfl

@[simp] theorem writes_cons_fetchImg (u : String) (l : List Event) :
    writes (Event.fetchImg u :: l) = writes l := rfl

@[simp] theorem writes_cons_write (p : String) (d : List Nat) (l : List Event) :
    writes (Event.writeFile p d :: l) = p :: writes l := rfl

@[simp] theorem writes_cons_fetchTxt (u : String) (l : List Event) :
    writes (Event.fetchTxt u :: l) = writes l := rfl

@[simp] theorem writes_cons_djvused (p : String) (s : DjvusedScript) (l : List Event) :
    writes (Event.djvused p s :: l) = writes l := rfl

@[simp] theorem writes_cons_djvm (o : String) (ps : List String) (l : List Event) :
    writes (Event.djvm o ps :: l) = writes l := rfl

@[simp] theorem writes_append (a b : List Event) :
    writes (a ++ b) = writes a ++ writes b := by
  unfold writes
  exact List.filterMap_append a b _

@[simp] theorem mergeCalls_nil : mergeCalls [] = [] := rfl

@[simp] theorem mergeCalls_cons_print (s : String) (l : List Event) :
    mergeCalls (Event.printLine s :: l) = mergeCalls l := rfl

@[simp] theorem mergeCalls_cons_fetchImg (u : String) (l : List Event) :
    mergeCalls (Event.fetchImg u :: l) = mergeCalls l := rfl

@[simp] theorem mergeCalls_cons_write (p : String) (d : List Nat) (l : List Event) :
    mergeCalls (Event.writeFile p d :: l) = mergeCalls l := rfl

@[simp] theorem mergeCalls_cons_fetchTxt (u : String) (l : List Event) :
    mergeCalls (Event.fetchTxt u :: l) = mergeCalls l := rfl

@[simp] theorem mergeCalls_cons_djvused (p : String) (s : DjvusedScript) (l : List Event) :
    mergeCalls (Event.djvused p s :: l) = mergeCalls l := rfl

@[simp] theorem mergeCalls_cons_djvm (o : String) (ps : List String) (l : List Event) :
    mergeCalls (Event.djvm o ps :: l) = (o, ps) :: mergeCalls l := rfl

@[simp] theorem mergeCalls_append (a b : List Event) :
    mergeCalls (a ++ b) = mergeCalls a ++ mergeCalls b := by
  unfold mergeCalls
  exact List.filterMap_append a b _

@[simp] theorem djvusedCalls_nil : djvusedCalls [] = [] := rfl

@[simp] theorem djvusedCalls_cons_print (s : String) (l : List Event) :
    djvusedCalls (Event.printLine s :: l) = djvusedCalls l := rfl

@[simp] theorem djvusedCalls_cons_fetchImg (u : String) (l : List Event) :
    djvusedCalls (Event.fetchImg u :: l) = djvusedCalls l := rfl

@[simp] theorem djvusedCalls_cons_write (p : String) (d : List Nat) (l : List Event) :
    djvusedCalls (Event.writeFile p d :: l) = djvusedCalls l := rfl

@[simp] theorem djvusedCalls_cons_fetchTxt (u : String) (l : List Event) :
    djvusedCalls (Event.fetchTxt u :: l) = djvusedCalls l := rfl

@[simp] theorem djvusedCalls_cons_djvused (p : String) (s : DjvusedScript) (l : List Event) :
    djvusedCalls (Event.djvused p s :: l) = (p, s) :: djvusedCalls l := rfl

@[simp] theorem djvusedCalls_cons_djvm (o : String) (ps : List String) (l : List Event) :
    djvusedCalls (Event.djvm o ps :: l) = djvusedCalls l := rfl

@[simp] theorem djvusedCalls_append (a b : List Event) :
    djvusedCalls (a ++ b) = djvusedCalls a ++ djvusedCalls b := by
  unfold djvusedCalls
  exact List.filterMap_append a b _

theorem set_djvu_text_events (env : Env) (fn text : String) :
    (set_djvu_text env fn text).1
      = [Event.djvused fn (djvusedScriptSpec env fn text)] := by
  unfold set_djvu_text djvusedScriptSpec
  dsimp only
  split <;> rfl

theorem set_djvu_text_err (env : Env) (fn text : String) :
    (set_djvu_text env fn text).2
      = if env.djvusedExit fn (djvusedScriptSpec env fn text) != 0 then
          some (.childProcessError "Failed to create DJVU text layer")
        else none := by
  unfold set_djvu_text djvusedScriptSpec
  dsimp only
  split
  next h => simp [h]
  next h => simp [h]

theorem page_names_length (tempdir : String) :
    ∀ (n k : Nat), (page_names tempdir k n).length = n := by
  intro n
  induction n with
  | zero => intro k; rfl
  | succ m ih => intro k; simp [page_names, ih]

theorem mergeCalls_download (env : Env) (tempdir : String) :
    ∀ (l : List (String × Option String)) (k : Nat),
      mergeCalls (download_pages env tempdir k l).1 = [] := by
  intro l
  induction l with
  | nil => intro k; rfl
  | cons p rest ih =>
    intro k
    obtain ⟨img, txt⟩ := p
    rw [download_pages]
    by_cases hok : (env.imgResp img).ok = false
    · simp [hok]
    · cases txt with
      | none => simp [hok, ih (k + 1)]
      | some t =>
        by_cases htok : (env.txtResp t).ok = false
        · simp [hok, htok]
        · cases hs : (set_djvu_text env (page_path tempdir k)
              (stripChar (Char.ofNat 13) (env.decode "utf-8" (env.txtResp t).body))).2 with
          | some e => simp [hok, htok, hs, set_djvu_text_events]
          | none => simp [hok, htok, hs, set_djvu_text_events, ih (k + 1)]

theorem download_pages_ok (env : Env) (tempdir : String)
    (hImg : ∀ u, (env.imgResp u).ok = true)
    (hTxt : ∀ u, (env.txtResp u).ok = true)
    (hSed : ∀ p s, env.djvusedExit p s = 0) :
    ∀ (l : List (String × Option String)) (k : Nat),
      (download_pages env tempdir k l).2.2 = none
      ∧ (download_pages env tempdir k l).2.1 = page_names tempdir k l.length
      ∧ writes (download_pages env tempdir k l).1 = page_names tempdir k l.length := by
  intro l
  induction l with
  | nil => intro k; exact ⟨rfl, rfl, rfl⟩
  | cons p rest ih =>
    intro k
    obtain ⟨img, txt⟩ := p
    obtain ⟨ih1, ih2, ih3⟩ := ih (k + 1)
    have hok : ¬((env.imgResp img).ok = false) := by simp [hImg img]
    rw [download_pages]
    cases txt with
    | none =>
      refine ⟨by simp [hok, ih1], by simp [hok, ih2, page_names], ?_⟩
      simp [hok, ih3, page_names]
    | some t =>
      have htok : ¬((env.txtResp t).ok = false) := by simp [hTxt t]
      have hserr : (set_djvu_text env (page_path tempdir k)
          (stripChar (Char.ofNat 13) (env.decode "utf-8" (env.txtResp t).body))).2 = none := by
        rw [set_djvu_text_err]
        simp [hSed]
      refine ⟨by simp [hok, htok, hserr, ih1], by simp [hok, htok, hserr, ih2, page_names], ?_⟩
      simp [hok, htok, hserr, set_djvu_text_events, ih3, page_names]

/-! ### C7: page assembly produces N files and one merge call -/

/-- C7: for a manifest whose parse phase yields N fully resolved page
entries, when every fetch succeeds and both tools exit 0, the pipeline
writes exactly N temporary page files named by the 4-digit zero-padded
counter starting at 1 (`page_names tempdir 1 N`), in manifest order, and
invokes the merge tool exactly once, with the computed output path and
exactly those N paths in the same order. -/
theorem process_mets_assembly (env : Env) (tempdir filename : String)
    (xml : Mets) (pageurls : List (String × Option String)) (description : String)
    (hp : parse_phase filename xml = .ok (some (pageurls, description)))
    (hImg : ∀ u, (env.imgResp u).ok = true)
    (hTxt : ∀ u, (env.txtResp u).ok = true)
    (hSed : ∀ p s, env.djvusedExit p s = 0)
    (hMerge : ∀ o pl, env.djvmExit o pl = 0) :
    (process_mets env tempdir filename xml).2 = none
    ∧ writes (process_mets env tempdir filename xml).1
        = page_names tempdir 1 pageurls.length
    ∧ (writes (process_mets env tempdir filename xml).1).length = pageurls.length
    ∧ mergeCalls (process_mets env tempdir filename xml).1
        = [(outfile_of filename, page_names tempdir 1 pageurls.length)] := by
  obtain ⟨h1, h2, h3⟩ := download_pages_ok env tempdir hImg hTxt hSed pageurls 1
  have hmc := mergeCalls_download env tempdir pageurls 1
  rcases hd : download_pages env tempdir 1 pageurls with ⟨evs, names, err⟩
  rw [hd] at h1 h2 h3 hmc
  simp only at h1 h2 h3 hmc
  subst h1
  have hmrg : merge_djvu env (outfile_of filename) names
      = ([Event.djvm (outfile_of filename) names], none) := by
    unfold merge_djvu
    simp [hMerge]
  unfold process_mets
  simp only [hp, hd, hmrg]
  refine ⟨by trivial, ?_, ?_, ?_⟩
  · simp [h3, h2]
  · simp [h3, page_names_length]
  · simp [hmc, h2]

/-- The page entry list of `xmlGood` as computed by the parse phase. -/
def xmlGoodUrls : List (String × Option String) :=
  [("http://x/1.djvu", some "http://x/1.txt"), ("http://x/2.djvu", none)]

/-- The rendered description of `xmlGood`. -/
def xmlGoodDesc : String :=
  "\x7b\x7bBook\n |Title = T\n |Source = \x7b\x7bKramerius link|uuid|123\x7d\x7d\n |Permission = \x7b\x7bPD-old\x7d\x7d\n |Image page = 1\n |Wikisource = :s:cs:Index:\x7b\x7bPAGENAME\x7d\x7d\n\x7d\x7d"

/-- Witness for C7: the concrete two-page manifest under the benign
environment writes page-0001 and page-0002 and merges them once. -/
theorem process_mets_assembly_witness :
    parse_phase "d/f.xml" xmlGood = .ok (some (xmlGoodUrls, xmlGoodDesc))
    ∧ (process_mets constEnv "/tmp" "d/f.xml" xmlGood).2 = none
    ∧ writes (process_mets constEnv "/tmp" "d/f.xml" xmlGood).1
        = page_names "/tmp" 1 xmlGoodUrls.length
    ∧ mergeCalls (process_mets constEnv "/tmp" "d/f.xml" xmlGood).1
        = [(outfile_of "d/f.xml", page_names "/tmp" 1 xmlGoodUrls.length)] := by
  have h := process_mets_assembly constEnv "/tmp" "d/f.xml" xmlGood xmlGoodUrls
    xmlGoodDesc rfl (fun _ => rfl) (fun _ => rfl) (fun _ _ => rfl) (fun _ _ => rfl)
  exact ⟨rfl, h.1, h.2.1, h.2.2.2⟩

/-! ### C8: the text layer command and its fatality -/

/-- C8: a page entry with a text locator fetches the text, decodes it with
the forced UTF-8 charset (whatever the wire declared), strips carriage
returns, and invokes the text-layer tool on that page's file with the
command built from page index 0 of that file: select 1 and the
s-expression (page 0 0 width-1 height-1 raw-text). A nonzero exit status
aborts with ChildProcessError; the error propagates out of
`process_mets`, so the merge tool is never invoked for the document. -/
theorem text_layer_command (env : Env) (tempdir : String) (k : Nat)
    (img t : String) (rest : List (String × Option String))
    (hImg : (env.imgResp img).ok = true)
    (hTxt : (env.txtResp t).ok = true) :
    (download_pages env tempdir k ((img, some t) :: rest)).1.take 4
      = [Event.fetchImg img,
         Event.writeFile (page_path tempdir k) (env.imgResp img).body,
         Event.fetchTxt t,
         Event.djvused (page_path tempdir k)
           (djvusedScriptSpec env (page_path tempdir k) (txt_text_spec env t))]
    ∧ (djvusedScriptSpec env (page_path tempdir k) (txt_text_spec env t)
        = ⟨1, "page", 0, 0, (env.pageDims (page_path tempdir k) 0).1 - 1,
            (env.pageDims (page_path tempdir k) 0).2 - 1, txt_text_spec env t⟩)
    ∧ (env.djvusedExit (page_path tempdir k)
          (djvusedScriptSpec env (page_path tempdir k) (txt_text_spec env t)) ≠ 0 →
        (download_pages env tempdir k ((img, some t) :: rest)).2.2
          = some (.childProcessError "Failed to create DJVU text layer"))
    ∧ (∀ (filename : String) (xml : Mets)
          (pageurls : List (String × Option String)) (description : String)
          (evs : List Event) (names : List String) (e : PyErr),
        parse_phase filename xml = .ok (some (pageurls, description)) →
        download_pages env tempdir 1 pageurls = (evs, names, some e) →
        process_mets env tempdir filename xml = (evs, some e)
          ∧ mergeCalls evs = []) := by
  have hok : ¬((env.imgResp img).ok = false) := by simp [hImg]
  have htok : ¬((env.txtResp t).ok = false) := by simp [hTxt]
  refine ⟨?_, rfl, ?_, ?_⟩
  · rw [download_pages]
    cases hs : (set_djvu_text env (page_path tempdir k)
        (stripChar (Char.ofNat 13) (env.decode "utf-8" (env.txtResp t).body))).2 with
    | some e =>
      simp [hok, htok, hs, set_djvu_text_events, txt_text_spec, List.take]
    | none =>
      simp [hok, htok, hs, set_djvu_text_events, txt_text_spec, List.take]
  · intro hx
    rw [download_pages]
    have hs : (set_djvu_text env (page_path tempdir k)
        (stripChar (Char.ofNat 13) (env.decode "utf-8" (env.txtResp t).body))).2
          = some (.childProcessError "Failed to create DJVU text layer") := by
      rw [set_djvu_text_err]
      simp only [txt_text_spec] at hx
      simp [hx]
    simp [hok, htok, hs]
  · intro filename xml pageurls description evs names e hp hd
    constructor
    · unfold process_mets
      simp only [hp, hd]
    · have := mergeCalls_download env tempdir pageurls 1
      rw [hd] at this
      simpa using this

/-- Witness for C8 at a concrete one-page entry under the benign
environment: forced UTF-8 decode, CR stripped, bounding box 0 0 99 199. -/
theorem text_layer_command_witness :
    (constEnv.imgResp "u").ok = true
    ∧ (constEnv.txtResp "v").ok = true
    ∧ (download_pages constEnv "/tmp" 1 [("u", some "v")]).1.take 4
        = [Event.fetchImg "u", Event.writeFile "/tmp/page-0001.djvu" [1],
           Event.fetchTxt "v",
           Event.djvused "/tmp/page-0001.djvu" ⟨1, "page", 0, 0, 99, 199, "AB"⟩] := by
  refine ⟨rfl, rfl, ?_⟩
  have h := (text_layer_command constEnv "/tmp" 1 "u" "v" [] rfl rfl).1
  rw [h]
  rfl

/-! ### C3: empty image group means skip, not failure -/

/-- C3: when the manifest resolves exactly one image group and one text
group but the image group contains no page-use entries of the DJVU MIME
type, processing the file prints the diagnostic line and stops: no
exception, no fetches, no temporary files, no merge call, no description
output. -/
theorem process_mets_empty_skip (env : Env) (tempdir filename : String)
    (xml : Mets) (g tg : FileGrp) (turls : Dict String)
    (hg : grpQuery xml "img" = [g])
    (hge : g.files.filter (fun f => f.use == "Page" && f.mimetype == "image/vnd.djvu") = [])
    (htg : grpQuery xml "txt" = [tg])
    (ht : parse_filegroup tg "text/plain" = .ok turls) :
    process_mets env tempdir filename xml
      = ([Event.printLine ("No DJVU pages found in " ++ filename)], none) := by
  have hi : parse_filegroup g "image/vnd.djvu" = .ok [] := by
    unfold parse_filegroup
    rw [hge]
    rfl
  have hp : parse_phase filename xml = .ok none := by
    unfold parse_phase
    simp [hg, htg, single_node, hi, ht, Bind.bind, Except.bind]
  unfold process_mets
  simp only [hp]

/-- Witness for C3: the concrete empty-image-group manifest is skipped
with only the diagnostic line. -/
theorem process_mets_empty_skip_witness :
    grpQuery xmlSkip "img" = [⟨"img", []⟩]
    ∧ process_mets constEnv "/tmp" "a.xml" xmlSkip
        = ([Event.printLine "No DJVU pages found in a.xml"], none) := by
  refine ⟨rfl, ?_⟩
  have h := process_mets_empty_skip constEnv "/tmp" "a.xml" xmlSkip
    ⟨"img", []⟩ ⟨"txt", []⟩ [] rfl rfl rfl rfl
  rw [h]
  rfl

/-! ### C4: a page without an image resolution is fatal, named by ORDER -/

theorem build_pageurls_error (filename : String) (imgurls txturls : Dict String)
    (p : PageDiv) (post : List PageDiv) (hp : imgHits imgurls p.fptrs = []) :
    ∀ (pre : List PageDiv), (∀ q ∈ pre, imgHits imgurls q.fptrs ≠ []) →
      build_pageurls filename imgurls txturls (pre ++ p :: post)
        = .error (.runtimeError (filename ++ ": No image URL for page " ++ p.order)) := by
  intro pre
  induction pre with
  | nil =>
    intro _
    rw [List.nil_append, build_pageurls, classify_fptrs_eq, hp]
    rfl
  | cons q pre ih =>
    intro hpre
    have hq : imgHits imgurls q.fptrs ≠ [] := hpre q (by simp)
    obtain ⟨u, hu⟩ : ∃ u, (imgHits imgurls q.fptrs).getLast? = some u := by
      cases hqq : imgHits imgurls q.fptrs with
      | nil => exact absurd hqq hq
      | cons a as =>
        cases hl : (a :: as).getLast? with
        | none => simp at hl
        | some u => exact ⟨u, rfl⟩
    have hrec := ih (fun r hr => hpre r (by simp [hr]))
    rw [List.cons_append, build_pageurls, classify_fptrs_eq, hu]
    simp only [Bind.bind, Except.bind, hrec]

/-- C4: when the manifest parses, the image map is non-empty, and the
page-structure section contains a page div none of whose resource
pointers resolves in the image map (all earlier pages resolving), the
whole file fails with a RuntimeError whose message embeds that page's
ORDER attribute, and no event at all is emitted: nothing is printed,
fetched or written, and no merge call happens, so no output file is
produced. -/
theorem missing_image_fatal (env : Env) (tempdir filename : String)
    (xml : Mets) (g tg : FileGrp) (imgurls turls : Dict String) (top : TopDiv)
    (pre post : List PageDiv) (p : PageDiv)
    (hg : grpQuery xml "img" = [g])
    (hi : parse_filegroup g "image/vnd.djvu" = .ok imgurls)
    (htg : grpQuery xml "txt" = [tg])
    (ht : parse_filegroup tg "text/plain" = .ok turls)
    (hne : imgurls.isEmpty = false)
    (hs : structQuery xml = [top])
    (hpages : top.pages = pre ++ p :: post)
    (hpre : ∀ q ∈ pre, imgHits imgurls q.fptrs ≠ [])
    (hp : imgHits imgurls p.fptrs = []) :
    process_mets env tempdir filename xml
      = ([], some (.runtimeError (filename ++ ": No image URL for page " ++ p.order)))
    ∧ (∃ a b, filename ++ ": No image URL for page " ++ p.order = a ++ p.order ++ b) := by
  have hb := build_pageurls_error filename imgurls turls p post hp pre hpre
  have hpp : parse_phase filename xml
      = .error (.runtimeError (filename ++ ": No image URL for page " ++ p.order)) := by
    unfold parse_phase
    rw [← hpages] at hb
    simp [hg, htg, single_node, hi, ht, hne, hs, hb, Bind.bind, Except.bind]
  constructor
  · unfold process_mets
    simp only [hpp]
  · exact ⟨filename ++ ": No image URL for page ", "", by simp⟩

/-- Witness for C4: the concrete manifest whose single page div points at
an unresolvable id fails naming ORDER 7, with an empty event trace. -/
theorem missing_image_fatal_witness :
    imgHits [("IMG1", "http://x/1.djvu")] [Fptr.mk "NOPE"] = []
    ∧ process_mets constEnv "/tmp" "b.xml" xmlBadPage
        = ([], some (.runtimeError "b.xml: No image URL for page 7"))
    ∧ (∃ a b, "b.xml" ++ ": No image URL for page " ++ "7" = a ++ "7" ++ b) := by
  have h := missing_image_fatal constEnv "/tmp" "b.xml" xmlBadPage
    ⟨"img", [⟨"IMG1", "Page", "image/vnd.djvu", [⟨"URL", "http://x/1.djvu"⟩]⟩]⟩
    ⟨"txt", []⟩ [("IMG1", "http://x/1.djvu")] [] ⟨"Pages", [⟨"7", [⟨"NOPE"⟩]⟩]⟩
    [] [] ⟨"7", [⟨"NOPE"⟩]⟩ rfl rfl rfl rfl rfl rfl rfl
    (fun q hq => absurd hq (by simp)) rfl
  refine ⟨rfl, ?_, ⟨"b.xml: No image URL for page ", "", by decide⟩⟩
  rw [h.1]
  rfl

/-! ### C2: there is no image-only fallback for a missing structMap -/

/-- Counterexample to C2: a manifest with a non-empty image group but no
page-structure section makes the parser FAIL with the structural XPath
error; it does not fall back to image-only pages. -/
theorem no_struct_fallback_counterexample :
    parse_filegroup ⟨"img", [⟨"IMG1", "Page", "image/vnd.djvu",
        [⟨"URL", "http://x/1.djvu"⟩]⟩]⟩ "image/vnd.djvu"
      = .ok [("IMG1", "http://x/1.djvu")]
    ∧ structQuery xmlNoStruct = []
    ∧ process_mets constEnv "/tmp" "f.xml" xmlNoStruct
        = ([], some (.runtimeError
            "XPath query returned unexpected number of results: 0")) :=
  ⟨rfl, rfl, rfl⟩

/-- C2 amended: when the manifest resolves both resource groups, the image
map is non-empty, and the page-structure query returns no node, processing
raises the fatal structural RuntimeError (count 0); no fallback exists and
no event is emitted. -/
theorem no_struct_is_fatal (env : Env) (tempdir filename : String) (xml : Mets)
    (g tg : FileGrp) (imgurls turls : Dict String)
    (hg : grpQuery xml "img" = [g])
    (hi : parse_filegroup g "image/vnd.djvu" = .ok imgurls)
    (htg : grpQuery xml "txt" = [tg])
    (ht : parse_filegroup tg "text/plain" = .ok turls)
    (hne : imgurls.isEmpty = false)
    (hs : structQuery xml = []) :
    process_mets env tempdir filename xml
      = ([], some (.runtimeError
          "XPath query returned unexpected number of results: 0")) := by
  have h0 : (single_node (structQuery xml) : Except PyErr TopDiv)
      = .error (.runtimeError
          "XPath query returned unexpected number of results: 0") := by
    rw [hs]
    rfl
  have hg1 : (single_node [g] : Except PyErr FileGrp) = .ok g := rfl
  have hg2 : (single_node [tg] : Except PyErr FileGrp) = .ok tg := rfl
  have hp : parse_phase filename xml
      = .error (.runtimeError
          "XPath query returned unexpected number of results: 0") := by
    unfold parse_phase
    simp [hg, htg, hg1, hg2, hi, ht, hne, h0, Bind.bind, Except.bind]
  unfold process_mets
  simp only [hp]

/-- Witness for the amended C2 at the concrete manifest. -/
theorem no_struct_is_fatal_witness :
    grpQuery xmlNoStruct "img" = [⟨"img", [⟨"IMG1", "Page", "image/vnd.djvu",
        [⟨"URL", "http://x/1.djvu"⟩]⟩]⟩]
    ∧ structQuery xmlNoStruct = []
    ∧ process_mets constEnv "/tmp" "g.xml" xmlNoStruct
        = ([], some (.runtimeError
            "XPath query returned unexpected number of results: 0")) := by
  refine ⟨rfl, rfl, ?_⟩
  exact no_struct_is_fatal constEnv "/tmp" "g.xml" xmlNoStruct
    ⟨"img", [⟨"IMG1", "Page", "image/vnd.djvu", [⟨"URL", "http://x/1.djvu"⟩]⟩]⟩
    ⟨"txt", []⟩ [("IMG1", "http://x/1.djvu")] [] rfl rfl rfl rfl rfl rfl

/-! ### C1: the batch loop catches and logs, but does not continue -/

/-- Counterexample to C1: in a three-file batch whose second file fails
structurally, the error is caught and logged, but the third file is never
attempted — the batch DOES abort early instead of continuing. -/
theorem batch_aborts_counterexample :
    batch_run batchStep ["a.xml", "b.xml", "c.xml"]
      = ([("a.xml", [Event.printLine "No DJVU pages found in a.xml"]), ("b.xml", [])],
         some (.runtimeError "XPath query returned unexpected number of results: 0"))
    ∧ "c.xml" ∉ (batch_run batchStep ["a.xml", "b.xml", "c.xml"]).1.map Prod.fst
    ∧ (batch_run batchStep ["a.xml", "b.xml", "c.xml"]).2 ≠ none := by
  refine ⟨rfl, ?_, ?_⟩ <;> decide

/-- C1 amended: a failing file's error is caught at the batch level and
logged (the returned error slot), every file before it is processed
normally, the failing file's partial trace is kept — but the loop stops:
no file after the failing one is ever attempted. -/
theorem batch_catches_and_stops (step : String → List Event × Option PyErr)
    (pre : List String) (f : String) (post : List String) (e : PyErr)
    (hpre : ∀ g ∈ pre, (step g).2 = none)
    (hf : (step f).2 = some e) :
    batch_run step (pre ++ f :: post)
      = (pre.map (fun g2 => (g2, (step g2).1)) ++ [(f, (step f).1)], some e) := by
  induction pre with
  | nil => simp [batch_run, hf]
  | cons g pre ih =>
    have hg : (step g).2 = none := hpre g (by simp)
    have ih2 := ih (fun x hx => hpre x (by simp [hx]))
    simp [batch_run, hg, ih2]

/-- Witness for the amended C1 on the concrete batch: `a.xml` is processed,
`b.xml` fails and is logged, `c.xml` is skipped. -/
theorem batch_catches_and_stops_witness :
    (∀ g ∈ ["a.xml"], (batchStep g).2 = none)
    ∧ (batchStep "b.xml").2
        = some (.runtimeError "XPath query returned unexpected number of results: 0")
    ∧ batch_run batchStep (["a.xml"] ++ "b.xml" :: ["c.xml"])
        = (["a.xml"].map (fun g2 => (g2, (batchStep g2).1))
            ++ [("b.xml", (batchStep "b.xml").1)],
           some (.runtimeError "XPath query returned unexpected number of results: 0")) := by
  refine ⟨by decide, rfl, ?_⟩
  exact batch_catches_and_stops batchStep ["a.xml"] "b.xml" ["c.xml"]
    (.runtimeError "XPath query returned unexpected number of results: 0")
    (by decide) rfl
